import Mathlib

/-!
Verification of the mini-language compiler core (lexer, IR generator, VM)
against its specification. The C++ sources are shallowly embedded: each C++
class's mutable state becomes a Lean structure, each method a pure function
threading that structure. Machine doubles are modelled as exact rationals
(`ℚ`); every program examined below computes only on small integers, where
IEEE double arithmetic is exact, and no theorem depends on rounding or on
the decimal rendering of a non-integral number. `uint8_t` operands are
modelled as `Nat` reduced mod 256 at the conversion sites, and the VM's
`size_t` instruction pointer as `Nat` reduced mod 2^64.
-/

set_option maxRecDepth 100000

namespace minilang

/-- Token kinds (Token.hpp, `enum class TokenType`). -/
inductive TokenType where
  | NUMBER | STRING | IDENTIFIER
  | LET | FN | IF | ELSE | WHILE | RETURN | TRUE | FALSE | PRINT
  | PLUS | MINUS | STAR | SLASH | PERCENT
  | AND | OR | BANG
  | EQUAL_EQUAL | BANG_EQUAL | LESS | LESS_EQUAL | GREATER | GREATER_EQUAL
  | EQUAL
  | LPAREN | RPAREN | LBRACE | RBRACE | COMMA | SEMICOLON
  | EOF_TOKEN | ERROR
deriving DecidableEq, Repr

/-- A token's optional literal payload
(`std::variant<std::monostate, double, std::string, bool>`). -/
inductive TokenLiteral where
  | none
  | num (n : ℚ)
  | str (s : String)
  | bool (b : Bool)
deriving DecidableEq, Repr

/-- A lexical token (Token.hpp, `struct Token`). -/
structure Token where
  type : TokenType
  lexeme : String
  line : Nat
  column : Nat
  literal : TokenLiteral
deriving DecidableEq, Repr

/-- Bytecode opcodes (`enum class OpCode`), in declaration order. -/
inductive OpCode where
  | OP_CONSTANT | OP_NIL | OP_TRUE | OP_FALSE
  | OP_ADD | OP_SUBTRACT | OP_MULTIPLY | OP_DIVIDE | OP_MODULO | OP_NEGATE
  | OP_EQUAL | OP_NOT_EQUAL | OP_LESS | OP_LESS_EQUAL | OP_GREATER | OP_GREATER_EQUAL
  | OP_NOT | OP_AND | OP_OR
  | OP_GET_LOCAL | OP_SET_LOCAL | OP_GET_GLOBAL | OP_SET_GLOBAL
  | OP_POP
  | OP_JUMP | OP_JUMP_IF_FALSE | OP_LOOP | OP_CALL | OP_RETURN
  | OP_PRINT
deriving DecidableEq, Repr

/-- The opcode's underlying integer value (`static_cast<int>(opcode)`):
its position in the enum declaration. -/
def OpCode.toInt : OpCode → Nat
  | .OP_CONSTANT => 0 | .OP_NIL => 1 | .OP_TRUE => 2 | .OP_FALSE => 3
  | .OP_ADD => 4 | .OP_SUBTRACT => 5 | .OP_MULTIPLY => 6 | .OP_DIVIDE => 7
  | .OP_MODULO => 8 | .OP_NEGATE => 9
  | .OP_EQUAL => 10 | .OP_NOT_EQUAL => 11 | .OP_LESS => 12 | .OP_LESS_EQUAL => 13
  | .OP_GREATER => 14 | .OP_GREATER_EQUAL => 15
  | .OP_NOT => 16 | .OP_AND => 17 | .OP_OR => 18
  | .OP_GET_LOCAL => 19 | .OP_SET_LOCAL => 20 | .OP_GET_GLOBAL => 21 | .OP_SET_GLOBAL => 22
  | .OP_POP => 23
  | .OP_JUMP => 24 | .OP_JUMP_IF_FALSE => 25 | .OP_LOOP => 26 | .OP_CALL => 27
  | .OP_RETURN => 28
  | .OP_PRINT => 29

/-- Runtime values (`struct Value`): a closed tagged union. The C++ struct
keeps a `ValueType` tag beside a `std::variant`; the tag is determined by
the active variant member, so the Lean sum carries the same information. -/
inductive Value where
  | nil
  | bool (b : Bool)
  | number (n : ℚ)
  | string (s : String)
deriving DecidableEq, Repr

def Value.isBool : Value → Bool
  | .bool _ => true
  | _ => false

def Value.isNumber : Value → Bool
  | .number _ => true
  | _ => false

def Value.isString : Value → Bool
  | .string _ => true
  | _ => false

def Value.isNil : Value → Bool
  | .nil => true
  | _ => false

/-- One bytecode instruction (`struct Instruction`): opcode, 8-bit operand,
and an inlined `constant` field that no code path ever reads (the VM reads
the chunk's constant pool instead); it always holds `Value()`, i.e. nil. -/
structure Instruction where
  opcode : OpCode
  operand : Nat
  constant : Value
deriving DecidableEq, Repr

/-- A chunk of bytecode (`struct Chunk`). -/
structure Chunk where
  code : List Instruction
  lines : List Nat
  constants : List Value
deriving DecidableEq, Repr

/-- `Chunk::write`: append one instruction and its line. The C++ parameter is
`uint8_t`, so any wider value passed by a caller arrives reduced mod 256. -/
def Chunk.write (c : Chunk) (op : OpCode) (line : Nat) (operand : Nat) : Chunk :=
  { c with
    code := c.code ++ [⟨op, operand % 256, .nil⟩]
    lines := c.lines ++ [line] }

/-- `Chunk::addConstant`: append a value to the pool and return its index. -/
def Chunk.addConstant (c : Chunk) (value : Value) : Chunk × Nat :=
  ({ c with constants := c.constants ++ [value] }, c.constants.length)

/-- `Chunk::writeConstant`: add the constant, then emit `OP_CONSTANT` whose
operand is `static_cast<uint8_t>(index)` — the index truncated to 8 bits,
with no range check. -/
def Chunk.writeConstant (c : Chunk) (constant : Value) (line : Nat) : Chunk :=
  let p := c.addConstant constant
  p.1.write .OP_CONSTANT line p.2

/-- A literal's payload (AST.hpp, `LiteralExpr::value`:
`std::variant<double, std::string, bool, std::monostate>`). -/
inductive LiteralValue where
  | num (n : ℚ)
  | str (s : String)
  | bool (b : Bool)
  | nil
deriving DecidableEq, Repr

/-- Expression nodes (AST.hpp), one constructor per `ExprType` variant.
`CallExpr`'s `paren` token is only diagnostic position data, read by no code
in the repository, and is omitted. -/
inductive Expr where
  | Binary (left : Expr) (op : Token) (right : Expr)
  | Unary (op : Token) (right : Expr)
  | Literal (value : LiteralValue)
  | Variable (name : Token)
  | Assignment (name : Token) (value : Expr)
  | Call (callee : Expr) (arguments : List Expr)
  | Grouping (expression : Expr)

/-- Statement nodes (AST.hpp), one constructor per `StmtType` variant.
Members the source may leave null (`LetStmt::initializer`,
`IfStmt::elseBranch`, `ReturnStmt::value`) are `Option`s; `ReturnStmt`'s
`keyword` token is unread by the core and omitted. -/
inductive Stmt where
  | Expression (expression : Expr)
  | Let (name : Token) (initializer : Option Expr)
  | Function (name : Token) (params : List Token) (body : List Stmt)
  | If (condition : Expr) (thenBranch : Stmt) (elseBranch : Option Stmt)
  | While (condition : Expr) (body : Stmt)
  | Return (value : Option Expr)
  | Print (expression : Expr)
  | Block (statements : List Stmt)

/-- A program is an ordered list of top-level statements. -/
def Program := List Stmt

/-- A tracked local variable (`struct Local`). -/
structure Local where
  name : String
  depth : Nat
  isCaptured : Bool
deriving DecidableEq, Repr

/-- The IR generator's mutable state (class `IRGenerator`): current chunk,
locals list, scope depth, sticky error flag and latest error message. -/
structure IRGenerator where
  chunk : Chunk
  locals : List Local
  scopeDepth : Nat
  hadError : Bool
  errorMsg : String
deriving DecidableEq, Repr

/-- The generator's state as `IRGenerator::compile` resets it on entry. -/
def IRGenerator.init : IRGenerator :=
  { chunk := ⟨[], [], []⟩, locals := [], scopeDepth := 0
    hadError := false, errorMsg := "" }

/-- `IRGenerator::error`: set the sticky flag and record the message
(the latest message overwrites any earlier one). -/
def IRGenerator.error (g : IRGenerator) (message : String) : IRGenerator :=
  { g with hadError := true, errorMsg := message }

/-- `IRGenerator::emitByte` (default operand 0 is passed explicitly here). -/
def IRGenerator.emitByte (g : IRGenerator) (op : OpCode) (operand : Nat) : IRGenerator :=
  { g with chunk := g.chunk.write op 0 operand }

/-- `IRGenerator::emitJump`: emit the opcode with the 255 placeholder. -/
def IRGenerator.emitJump (g : IRGenerator) (op : OpCode) : IRGenerator :=
  { g with chunk := g.chunk.write op 0 255 }

/-- `IRGenerator::emitLoop`: backward distance from the loop start, a
compile error beyond 255. -/
def IRGenerator.emitLoop (g : IRGenerator) (loopStart : Nat) : IRGenerator :=
  let offset := g.chunk.code.length - loopStart
  if offset > 255 then g.error "Loop body too large."
  else { g with chunk := g.chunk.write .OP_LOOP 0 offset }

/-- Overwrite the operand of the instruction at `i` (the write through
`m_chunk.code[offset]`); `i` is in range at every call site. -/
def setOperand (code : List Instruction) (i : Nat) (operand : Nat) : List Instruction :=
  match code.get? i with
  | some instr => code.set i { instr with operand := operand % 256 }
  | none => code

/-- `IRGenerator::patchJump`: forward distance
`code.size() - 1 - offset`; a compile error beyond 255, in which case the
placeholder operand stays 255. -/
def IRGenerator.patchJump (g : IRGenerator) (offset : Nat) : IRGenerator :=
  let jump := g.chunk.code.length - 1 - offset
  if jump > 255 then g.error "Jump too far."
  else { g with chunk := { g.chunk with code := setOperand g.chunk.code offset jump } }

/-- `IRGenerator::beginScope`. -/
def IRGenerator.beginScope (g : IRGenerator) : IRGenerator :=
  { g with scopeDepth := g.scopeDepth + 1 }

/-- The loop of `IRGenerator::endScope`: while the newest local is deeper
than the current depth, emit `OP_POP` and drop it. The counter bounds the
iteration by the locals count, which the loop strictly decreases. -/
def IRGenerator.popDeeperLocals : IRGenerator → Nat → IRGenerator
  | g, 0 => g
  | g, n + 1 =>
    match g.locals.getLast? with
    | some l =>
      if l.depth > g.scopeDepth then
        IRGenerator.popDeeperLocals
          { (g.emitByte .OP_POP 0) with locals := g.locals.dropLast } n
      else g
    | none => g

/-- `IRGenerator::endScope`: decrement the depth, then pop this scope's
locals in reverse declaration order. -/
def IRGenerator.endScope (g : IRGenerator) : IRGenerator :=
  let g1 := { g with scopeDepth := g.scopeDepth - 1 }
  g1.popDeeperLocals g1.locals.length

/-- The duplicate scan of `IRGenerator::declareVariable`: walk the locals
from the newest backward, stopping at the first entry whose depth is not
the current depth, and report whether `name` occurs before the stop. -/
def dupInCurrentScope (locals : List Local) (depth : Nat) (name : String) : Bool :=
  (locals.reverse.takeWhile (fun l => l.depth == depth)).any (fun l => l.name == name)

/-- `IRGenerator::declareVariable`: a no-op at depth 0; otherwise a compile
error on a duplicate in the current scope, else push the new local. -/
def IRGenerator.declareVariable (g : IRGenerator) (name : String) : IRGenerator :=
  if g.scopeDepth = 0 then g
  else if dupInCurrentScope g.locals g.scopeDepth name then
    g.error ("Variable '" ++ name ++ "' already declared in this scope.")
  else { g with locals := g.locals ++ [⟨name, g.scopeDepth, false⟩] }

/-- `IRGenerator::resolveLocal`: scan from the newest local backward and
return the slot index of the first match; the C++ `-1` miss is `none`. -/
def resolveLocal (locals : List Local) (name : String) : Option Nat :=
  match locals.reverse.findIdx? (fun l => l.name == name) with
  | some j => some (locals.length - 1 - j)
  | none => none

/-- `IRGenerator::markInitialized`: set the newest local's depth to the
current scope depth (a no-op with no locals). -/
def IRGenerator.markInitialized (g : IRGenerator) : IRGenerator :=
  match g.locals.getLast? with
  | none => g
  | some l =>
    { g with locals := g.locals.dropLast ++ [{ l with depth := g.scopeDepth }] }

mutual

/-- `IRGenerator::compileExpr` and its per-variant helpers
(`compileBinaryExpr`, `compileUnaryExpr`, `compileLiteralExpr`,
`compileVariableExpr`, `compileAssignExpr`, `compileCallExpr`,
`compileGroupingExpr`), inlined at their single dispatch site. -/
def IRGenerator.compileExpr (g : IRGenerator) : Expr → IRGenerator
  | .Binary left op right =>
    let g1 := (g.compileExpr left).compileExpr right
    match op.type with
    | .PLUS => g1.emitByte .OP_ADD 0
    | .MINUS => g1.emitByte .OP_SUBTRACT 0
    | .STAR => g1.emitByte .OP_MULTIPLY 0
    | .SLASH => g1.emitByte .OP_DIVIDE 0
    | .PERCENT => g1.emitByte .OP_MODULO 0
    | .EQUAL_EQUAL => g1.emitByte .OP_EQUAL 0
    | .BANG_EQUAL => (g1.emitByte .OP_EQUAL 0).emitByte .OP_NOT 0
    | .LESS => g1.emitByte .OP_LESS 0
    | .LESS_EQUAL => (g1.emitByte .OP_GREATER 0).emitByte .OP_NOT 0
    | .GREATER => g1.emitByte .OP_GREATER 0
    | .GREATER_EQUAL => (g1.emitByte .OP_LESS 0).emitByte .OP_NOT 0
    | .AND => g1.emitByte .OP_AND 0
    | .OR => g1.emitByte .OP_OR 0
    | _ => g1.error ("Unknown binary operator: " ++ op.lexeme)
  | .Unary op right =>
    let g1 := g.compileExpr right
    match op.type with
    | .MINUS => g1.emitByte .OP_NEGATE 0
    | .BANG => g1.emitByte .OP_NOT 0
    | _ => g1.error ("Unknown unary operator: " ++ op.lexeme)
  | .Literal value =>
    match value with
    | .num n => { g with chunk := g.chunk.writeConstant (.number n) 0 }
    | .str s => { g with chunk := g.chunk.writeConstant (.string s) 0 }
    | .bool b => if b then g.emitByte .OP_TRUE 0 else g.emitByte .OP_FALSE 0
    | .nil => g.emitByte .OP_NIL 0
  | .Variable name =>
    match resolveLocal g.locals name.lexeme with
    | some i => g.emitByte .OP_GET_LOCAL i
    | none => g.error ("Undefined variable: " ++ name.lexeme)
  | .Assignment name value =>
    let g1 := g.compileExpr value
    match resolveLocal g1.locals name.lexeme with
    | some i => g1.emitByte .OP_SET_LOCAL i
    | none => g1.error ("Undefined variable: " ++ name.lexeme)
  | .Call callee arguments =>
    ((g.compileExpr callee).compileExprList arguments).emitByte
      .OP_CALL arguments.length
  | .Grouping expression => g.compileExpr expression

/-- The argument loop of `IRGenerator::compileCallExpr`. -/
def IRGenerator.compileExprList (g : IRGenerator) : List Expr → IRGenerator
  | [] => g
  | a :: rest => (g.compileExpr a).compileExprList rest

end

mutual

/-- `IRGenerator::compileStmt` and its per-variant helpers
(`compileExpressionStmt`, `compileLetStmt`, `compileFunctionStmt`,
`compileIfStmt`, `compileWhileStmt`, `compileReturnStmt`,
`compilePrintStmt`, `compileBlockStmt`), inlined at their single
dispatch site. -/
def IRGenerator.compileStmt (g : IRGenerator) : Stmt → IRGenerator
  | .Expression expression => (g.compileExpr expression).emitByte .OP_POP 0
  | .Let name initializer =>
    let g1 := g.declareVariable name.lexeme
    let g2 := match initializer with
      | some e => g1.compileExpr e
      | none => g1.emitByte .OP_NIL 0
    g2.markInitialized
  | .Function name _params _body =>
    ((g.declareVariable name.lexeme).markInitialized).emitByte .OP_NIL 0
  | .If condition thenBranch elseBranch =>
    let g1 := (g.compileExpr condition).emitJump .OP_JUMP_IF_FALSE
    let thenJump := g1.chunk.code.length - 1
    let g2 := (g1.compileStmt thenBranch).emitJump .OP_JUMP
    let elseJump := g2.chunk.code.length - 1
    let g3 := g2.patchJump thenJump
    let g4 := match elseBranch with
      | some e => g3.compileStmt e
      | none => g3
    g4.patchJump elseJump
  | .While condition body =>
    let loopStart := g.chunk.code.length
    let g1 := (g.compileExpr condition).emitJump .OP_JUMP_IF_FALSE
    let exitJump := g1.chunk.code.length - 1
    let g2 := (g1.compileStmt body).emitLoop loopStart
    g2.patchJump exitJump
  | .Return value =>
    let g1 := match value with
      | some e => g.compileExpr e
      | none => g.emitByte .OP_NIL 0
    g1.emitByte .OP_RETURN 0
  | .Print expression => (g.compileExpr expression).emitByte .OP_PRINT 0
  | .Block statements => ((g.beginScope).compileStmtList statements).endScope

/-- The statement loop of `IRGenerator::compileBlockStmt` (no error check
between statements). -/
def IRGenerator.compileStmtList (g : IRGenerator) : List Stmt → IRGenerator
  | [] => g
  | s :: rest => (g.compileStmt s).compileStmtList rest

end

/-- The top-level statement loop of `IRGenerator::compile`: after each
statement, return at once if the sticky flag is set. -/
def IRGenerator.compileTop (g : IRGenerator) : List Stmt → IRGenerator
  | [] => g
  | s :: rest =>
    let g1 := g.compileStmt s
    if g1.hadError then g1 else g1.compileTop rest

/-- `IRGenerator::compile`: reset all generator state, open the implicit
outermost scope, lower the statements (stopping after the first one that
errors), and otherwise close the scope and emit the final `OP_RETURN`.
The whole generator state is returned: the C++ method returns `m_chunk`
and exposes `m_hadError` / `m_error` through accessors. -/
def IRGenerator.compile (program : Program) : IRGenerator :=
  let g1 := IRGenerator.init.beginScope
  let g2 := g1.compileTop program
  if g2.hadError then g2 else (g2.endScope).emitByte .OP_RETURN 0

/-- Result of a compile-and-run cycle (`enum class InterpretResult`). -/
inductive InterpretResult where
  | OK
  | COMPILE_ERROR
  | RUNTIME_ERROR
deriving DecidableEq, Repr

/-- One past the largest `size_t` value: the VM's instruction pointer is a
`size_t` and wraps mod this. -/
def UINT64 : Nat := 2 ^ 64

/-- The VM's mutable state (class `VM`): operand stack (top first, matching
`std::stack`), instruction pointer, latest runtime error message, and the
lines this run has written to the output sink (`*m_output`); the sink
itself is external and configuration only. -/
structure VM where
  stack : List Value
  ip : Nat
  errorMsg : String
  output : List String
deriving DecidableEq, Repr

/-- `VM::runtimeError`: store the message (and nothing else). -/
def VM.runtimeError (vm : VM) (message : String) : VM :=
  { vm with errorMsg := message }

/-- `VM::push`. -/
def VM.push (vm : VM) (value : Value) : VM :=
  { vm with stack := value :: vm.stack }

/-- `VM::pop`: on an empty stack, record "Stack underflow." and return
`Value()` (nil) — execution is not stopped here. -/
def VM.pop (vm : VM) : Value × VM :=
  match vm.stack with
  | [] => (.nil, vm.runtimeError "Stack underflow.")
  | v :: rest => (v, { vm with stack := rest })

/-- `VM::peek`: the top of the stack, or `Value()` when empty; the distance
argument is ignored by the implementation and every call site passes 0. -/
def VM.peek (vm : VM) : Value :=
  match vm.stack with
  | [] => .nil
  | v :: _ => v

/-- `VM::isFalsey`: nil and false are falsey, a number is falsey exactly at
zero, a string never. -/
def VM.isFalsey : Value → Bool
  | .nil => true
  | .bool b => !b
  | .number n => decide (n = 0)
  | .string _ => false

/-- `VM::valuesEqual`: different tags are never equal; equal tags compare
the payload. -/
def VM.valuesEqual : Value → Value → Bool
  | .nil, .nil => true
  | .bool a, .bool b => a == b
  | .number a, .number b => decide (a = b)
  | .string a, .string b => a == b
  | _, _ => false

/-- Truncation of a rational toward zero, as C `fmod`'s implied quotient. -/
def ratTrunc (q : ℚ) : ℤ :=
  if 0 ≤ q then q.floor else -((-q).floor)

/-- `std::fmod` on the exact rationals standing in for doubles:
`x - y * trunc(x / y)`; only reached with `y ≠ 0`. -/
def ratFmod (x y : ℚ) : ℚ :=
  x - y * (ratTrunc (x / y) : ℚ)

/-- `VM::valueToString`. Nil, booleans and strings render exactly as in the
source. A number renders through `std::format("{}", double)` plus
trailing-zero trimming, which on an integral value yields the plain
integer digits, reproduced here; the shortest-round-trip rendering of a
non-integral double has no exact rational counterpart and is abstracted as
`num/den` (no theorem below observes a printed non-integral number). -/
def VM.valueToString : Value → String
  | .nil => "nil"
  | .bool b => if b then "true" else "false"
  | .number n => if n.den = 1 then toString n.num else toString n
  | .string s => s

/-- What one iteration of the fetch-decode-execute loop does: keep going
with a new state, or leave `interpret` with a result. -/
inductive StepResult where
  | cont (vm : VM)
  | halt (result : InterpretResult) (vm : VM)
deriving DecidableEq, Repr

/-- One iteration of `VM::interpret`'s loop: `readInstruction` (returning a
default `OP_RETURN` once the pointer is past the code, without advancing
it), then the opcode dispatch. Opcodes absent from the C++ switch
(`OP_NOT_EQUAL`, `OP_LESS_EQUAL`, `OP_GREATER_EQUAL`, `OP_GET_GLOBAL`,
`OP_SET_GLOBAL`) fall to the default: an "Unknown opcode" runtime error.
A constant read past the pool (`constants[operand]`) is undefined
behaviour in C++ and modelled as nil; the generator never emits one. -/
def VM.step (chunk : Chunk) (vm0 : VM) : StepResult :=
  match chunk.code.get? vm0.ip with
  | none => .halt .OK vm0
  | some instr =>
    let vm := { vm0 with ip := (vm0.ip + 1) % UINT64 }
    match instr.opcode with
    | .OP_CONSTANT => .cont (vm.push (chunk.constants.getD instr.operand .nil))
    | .OP_NIL => .cont (vm.push .nil)
    | .OP_TRUE => .cont (vm.push (.bool true))
    | .OP_FALSE => .cont (vm.push (.bool false))
    | .OP_ADD =>
      let p1 := vm.pop
      let p2 := p1.2.pop
      match p2.1, p1.1 with
      | .string a, .string b => .cont (p2.2.push (.string (a ++ b)))
      | .number a, .number b => .cont (p2.2.push (.number (a + b)))
      | _, _ =>
        .halt .RUNTIME_ERROR
          (p2.2.runtimeError "Operands must be two numbers or two strings.")
    | .OP_SUBTRACT =>
      let p1 := vm.pop
      let p2 := p1.2.pop
      match p2.1, p1.1 with
      | .number a, .number b => .cont (p2.2.push (.number (a - b)))
      | _, _ => .halt .RUNTIME_ERROR (p2.2.runtimeError "Operands must be numbers.")
    | .OP_MULTIPLY =>
      let p1 := vm.pop
      let p2 := p1.2.pop
      match p2.1, p1.1 with
      | .number a, .number b => .cont (p2.2.push (.number (a * b)))
      | _, _ => .halt .RUNTIME_ERROR (p2.2.runtimeError "Operands must be numbers.")
    | .OP_DIVIDE =>
      let p1 := vm.pop
      let p2 := p1.2.pop
      match p2.1, p1.1 with
      | .number a, .number b =>
        if b = 0 then .halt .RUNTIME_ERROR (p2.2.runtimeError "Division by zero.")
        else .cont (p2.2.push (.number (a / b)))
      | _, _ => .halt .RUNTIME_ERROR (p2.2.runtimeError "Operands must be numbers.")
    | .OP_MODULO =>
      let p1 := vm.pop
      let p2 := p1.2.pop
      match p2.1, p1.1 with
      | .number a, .number b =>
        if b = 0 then .halt .RUNTIME_ERROR (p2.2.runtimeError "Modulo by zero.")
        else .cont (p2.2.push (.number (ratFmod a b)))
      | _, _ => .halt .RUNTIME_ERROR (p2.2.runtimeError "Operands must be numbers.")
    | .OP_NEGATE =>
      let p := vm.pop
      match p.1 with
      | .number a => .cont (p.2.push (.number (-a)))
      | _ => .halt .RUNTIME_ERROR (p.2.runtimeError "Operand must be a number.")
    | .OP_EQUAL =>
      let p1 := vm.pop
      let p2 := p1.2.pop
      .cont (p2.2.push (.bool (VM.valuesEqual p2.1 p1.1)))
    | .OP_LESS =>
      let p1 := vm.pop
      let p2 := p1.2.pop
      match p2.1, p1.1 with
      | .number a, .number b => .cont (p2.2.push (.bool (decide (a < b))))
      | _, _ => .halt .RUNTIME_ERROR (p2.2.runtimeError "Operands must be numbers.")
    | .OP_GREATER =>
      let p1 := vm.pop
      let p2 := p1.2.pop
      match p2.1, p1.1 with
      | .number a, .number b => .cont (p2.2.push (.bool (decide (b < a))))
      | _, _ => .halt .RUNTIME_ERROR (p2.2.runtimeError "Operands must be numbers.")
    | .OP_NOT =>
      let p := vm.pop
      .cont (p.2.push (.bool (VM.isFalsey p.1)))
    | .OP_AND =>
      let p1 := vm.pop
      let p2 := p1.2.pop
      .cont (p2.2.push (.bool (!VM.isFalsey p2.1 && !VM.isFalsey p1.1)))
    | .OP_OR =>
      let p1 := vm.pop
      let p2 := p1.2.pop
      .cont (p2.2.push (.bool (!VM.isFalsey p2.1 || !VM.isFalsey p1.1)))
    | .OP_GET_LOCAL =>
      .halt .RUNTIME_ERROR (vm.runtimeError "Local variables not fully implemented.")
    | .OP_SET_LOCAL =>
      .halt .RUNTIME_ERROR (vm.runtimeError "Local variables not fully implemented.")
    | .OP_POP => .cont (vm.pop).2
    | .OP_JUMP => .cont { vm with ip := (vm.ip + instr.operand) % UINT64 }
    | .OP_JUMP_IF_FALSE =>
      if VM.isFalsey vm.peek then .cont { vm with ip := (vm.ip + instr.operand) % UINT64 }
      else .cont vm
    | .OP_LOOP =>
      .cont { vm with ip := ((UINT64 + vm.ip) - instr.operand % UINT64) % UINT64 }
    | .OP_CALL =>
      .halt .RUNTIME_ERROR (vm.runtimeError "Function calls not fully implemented.")
    | .OP_RETURN => .halt .OK vm
    | .OP_PRINT =>
      let p := vm.pop
      .cont { p.2 with output := p.2.output ++ [VM.valueToString p.1] }
    | _ =>
      .halt .RUNTIME_ERROR
        (vm.runtimeError ("Unknown opcode: " ++ toString instr.opcode.toInt))

/-- The `for (;;)` loop of `VM::interpret`, bounded by fuel: `none` means
the fuel ran out with the C++ loop still going (the loop itself has no
exit other than a `return`). -/
def VM.runLoop (chunk : Chunk) : Nat → VM → Option InterpretResult × VM
  | 0, vm => (none, vm)
  | fuel + 1, vm =>
    match VM.step chunk vm with
    | .halt r vm1 => (some r, vm1)
    | .cont vm1 => VM.runLoop chunk fuel vm1

/-- `VM::interpret`: reset the instruction pointer, the error message and
the operand stack (the incoming VM state `_vm` is exactly the state these
resets discard — the definition makes that discarding explicit), then run
the dispatch loop; the output component collects what this call writes to
the sink. -/
def VM.interpret (chunk : Chunk) (fuel : Nat) (_vm : VM) : Option InterpretResult × VM :=
  VM.runLoop chunk fuel { stack := [], ip := 0, errorMsg := "", output := [] }

/-- The lexer's mutable state (class `Lexer`): source text plus the scan
positions. The token accumulator of `tokenize` is threaded separately. -/
structure Lexer where
  source : List Char
  start : Nat
  current : Nat
  line : Nat
  column : Nat
deriving DecidableEq, Repr

/-- `Lexer::isAtEnd`. -/
def Lexer.isAtEnd (lx : Lexer) : Bool := lx.current ≥ lx.source.length

/-- `Lexer::peek`: the current character, `'\0'` at the end. -/
def Lexer.peek (lx : Lexer) : Char :=
  if lx.isAtEnd then '\x00' else lx.source.getD lx.current '\x00'

/-- `Lexer::peekNext`. -/
def Lexer.peekNext (lx : Lexer) : Char :=
  if lx.current + 1 ≥ lx.source.length then '\x00'
  else lx.source.getD (lx.current + 1) '\x00'

/-- `Lexer::advance`: return the current character and move past it
(every call site has already checked it is in range). -/
def Lexer.advance (lx : Lexer) : Char × Lexer :=
  (lx.source.getD lx.current '\x00',
    { lx with current := lx.current + 1, column := lx.column + 1 })

/-- `Lexer::match` (a reserved word in Lean): consume the current character
only when it equals `expected`. -/
def Lexer.matchChar (lx : Lexer) (expected : Char) : Bool × Lexer :=
  if lx.isAtEnd ∨ lx.source.getD lx.current '\x00' ≠ expected then (false, lx)
  else (true, { lx with current := lx.current + 1, column := lx.column + 1 })

/-- `Lexer::skipWhitespace`. Every loop in the lexer consumes at least one
character per iteration, so fuel of at least the source length makes the
fuel-out branch unreachable; `tokenize` passes `length + 1`. -/
def Lexer.skipWhitespace : Nat → Lexer → Lexer
  | 0, lx => lx
  | fuel + 1, lx =>
    if lx.isAtEnd then lx
    else
      let c := lx.peek
      if c = ' ' ∨ c = '\r' ∨ c = '\t' then Lexer.skipWhitespace fuel (lx.advance).2
      else if c = '\n' then
        Lexer.skipWhitespace fuel
          (({ lx with line := lx.line + 1, column := 1 }).advance).2
      else lx

/-- The consuming loop of `Lexer::skipComment`. -/
def Lexer.skipCommentLoop : Nat → Lexer → Lexer
  | 0, lx => lx
  | fuel + 1, lx =>
    if ¬lx.isAtEnd ∧ lx.peek ≠ '\n' then Lexer.skipCommentLoop fuel (lx.advance).2
    else lx

/-- `Lexer::skipComment`: a `//` comment runs to the end of the line. -/
def Lexer.skipComment (fuel : Nat) (lx : Lexer) : Lexer :=
  if lx.peek = '/' ∧ lx.peekNext = '/' then Lexer.skipCommentLoop fuel lx else lx

/-- The lexeme between `m_start` and `m_current`
(`m_source.substr(m_start, m_current - m_start)`). -/
def Lexer.lexemeText (lx : Lexer) : String :=
  String.mk ((lx.source.drop lx.start).take (lx.current - lx.start))

/-- `Lexer::makeToken` without a literal payload. -/
def Lexer.makeToken (lx : Lexer) (type : TokenType) : Token :=
  ⟨type, lx.lexemeText, lx.line, lx.column, .none⟩

/-- `Lexer::makeToken` with a number payload. The `bool` overload of the
source is called by no code path and has no counterpart here. -/
def Lexer.makeTokenNum (lx : Lexer) (type : TokenType) (literal : ℚ) : Token :=
  ⟨type, lx.lexemeText, lx.line, lx.column, .num literal⟩

/-- `Lexer::makeToken` with a string payload. -/
def Lexer.makeTokenStr (lx : Lexer) (type : TokenType) (literal : String) : Token :=
  ⟨type, lx.lexemeText, lx.line, lx.column, .str literal⟩

/-- `Lexer::errorToken`: an ERROR-kind token whose lexeme is the message. -/
def Lexer.errorToken (lx : Lexer) (message : String) : Token :=
  ⟨.ERROR, message, lx.line, lx.column, .none⟩

/-- The identifier-extension loop of `Lexer::scanIdentifier`. -/
def Lexer.identLoop : Nat → Lexer → Lexer
  | 0, lx => lx
  | fuel + 1, lx =>
    if lx.peek.isAlphanum ∨ lx.peek = '_' then Lexer.identLoop fuel (lx.advance).2
    else lx

/-- The `KEYWORDS` table. -/
def keywordLookup (text : String) : Option TokenType :=
  if text = "let" then some .LET
  else if text = "fn" then some .FN
  else if text = "if" then some .IF
  else if text = "else" then some .ELSE
  else if text = "while" then some .WHILE
  else if text = "return" then some .RETURN
  else if text = "true" then some .TRUE
  else if text = "false" then some .FALSE
  else if text = "print" then some .PRINT
  else none

/-- `Lexer::scanIdentifier`. -/
def Lexer.scanIdentifier (fuel : Nat) (lx0 : Lexer) : Token × Lexer :=
  let lx := Lexer.identLoop fuel lx0
  match keywordLookup lx.lexemeText with
  | some t => (lx.makeToken t, lx)
  | none => (lx.makeToken .IDENTIFIER, lx)

/-- The digit-run loop shared by both halves of `Lexer::scanNumber`. -/
def Lexer.digitLoop : Nat → Lexer → Lexer
  | 0, lx => lx
  | fuel + 1, lx =>
    if lx.peek.isDigit then Lexer.digitLoop fuel (lx.advance).2 else lx

/-- Digits read as a natural number. -/
def digitsToNat (ds : List Char) : Nat :=
  ds.foldl (fun acc c => acc * 10 + (c.toNat - 48)) 0

/-- `std::stod` on the digit string `scanNumber` collects
(`digits` or `digits.digits`), idealized to the exact rational the decimal
denotes; no theorem below depends on double rounding. -/
def parseDecimal (cs : List Char) : ℚ :=
  let intPart := cs.takeWhile (fun c => c ≠ '.')
  let fracPart := (cs.dropWhile (fun c => c ≠ '.')).drop 1
  (digitsToNat intPart : ℚ) + (digitsToNat fracPart : ℚ) / ((10 : ℚ) ^ fracPart.length)

/-- `Lexer::scanNumber`. -/
def Lexer.scanNumber (fuel : Nat) (lx0 : Lexer) : Token × Lexer :=
  let lx1 := Lexer.digitLoop fuel lx0
  let lx2 :=
    if lx1.peek = '.' ∧ lx1.peekNext.isDigit then Lexer.digitLoop fuel (lx1.advance).2
    else lx1
  (lx2.makeTokenNum .NUMBER (parseDecimal lx2.lexemeText.toList), lx2)

/-- The accumulation loop of `Lexer::scanString`. -/
def Lexer.stringLoop : Nat → Lexer → String → Lexer × String
  | 0, lx, acc => (lx, acc)
  | fuel + 1, lx, acc =>
    if lx.peek ≠ '\"' ∧ ¬lx.isAtEnd then
      let lx1 := if lx.peek = '\n' then { lx with line := lx.line + 1, column := 1 } else lx
      let p := lx1.advance
      Lexer.stringLoop fuel p.2 (acc.push p.1)
    else (lx, acc)

/-- `Lexer::scanString`: an unterminated string is an ERROR token. -/
def Lexer.scanString (fuel : Nat) (lx0 : Lexer) : Token × Lexer :=
  let p := Lexer.stringLoop fuel lx0 ""
  if p.1.isAtEnd then (p.1.errorToken "Unterminated string", p.1)
  else
    let lx1 := (p.1.advance).2
    (lx1.makeTokenStr .STRING p.2, lx1)

/-- `Lexer::scanToken`: skip whitespace and comments, mark the lexeme
start, and scan one token; an unexpected character or a lone `!` yields an
ERROR token. -/
def Lexer.scanToken (fuel : Nat) (lx0 : Lexer) : Token × Lexer :=
  let lxa := Lexer.skipWhitespace fuel lx0
  let lxb := Lexer.skipComment fuel lxa
  let lxc := Lexer.skipWhitespace fuel lxb
  let lx := { lxc with start := lxc.current }
  if lx.isAtEnd then (lx.makeToken .EOF_TOKEN, lx)
  else
    let p := lx.advance
    let c := p.1
    let lx1 := p.2
    if c.isAlpha ∨ c = '_' then Lexer.scanIdentifier fuel lx1
    else if c.isDigit then Lexer.scanNumber fuel lx1
    else if c = '\"' then Lexer.scanString fuel lx1
    else if c = '(' then (lx1.makeToken .LPAREN, lx1)
    else if c = ')' then (lx1.makeToken .RPAREN, lx1)
    else if c = '{' then (lx1.makeToken .LBRACE, lx1)
    else if c = '}' then (lx1.makeToken .RBRACE, lx1)
    else if c = ',' then (lx1.makeToken .COMMA, lx1)
    else if c = ';' then (lx1.makeToken .SEMICOLON, lx1)
    else if c = '+' then (lx1.makeToken .PLUS, lx1)
    else if c = '-' then (lx1.makeToken .MINUS, lx1)
    else if c = '*' then (lx1.makeToken .STAR, lx1)
    else if c = '/' then (lx1.makeToken .SLASH, lx1)
    else if c = '%' then (lx1.makeToken .PERCENT, lx1)
    else if c = '=' then
      let m := lx1.matchChar '='
      if m.1 then (m.2.makeToken .EQUAL_EQUAL, m.2) else (lx1.makeToken .EQUAL, lx1)
    else if c = '!' then
      let m := lx1.matchChar '='
      if m.1 then (m.2.makeToken .BANG_EQUAL, m.2)
      else (lx1.errorToken "Unexpected '!' without '='", lx1)
    else if c = '<' then
      let m := lx1.matchChar '='
      if m.1 then (m.2.makeToken .LESS_EQUAL, m.2) else (lx1.makeToken .LESS, lx1)
    else if c = '>' then
      let m := lx1.matchChar '='
      if m.1 then (m.2.makeToken .GREATER_EQUAL, m.2) else (lx1.makeToken .GREATER, lx1)
    else (lx1.errorToken ("Unexpected character: " ++ c.toString), lx1)

/-- The scanning loop of `Lexer::tokenize`. The filter
`if (token.type != TokenType::ERROR)` is reproduced as written: a token of
ERROR kind is dropped from the returned list, not stored. -/
def Lexer.tokenizeLoop (inner : Nat) :
    Nat → Lexer → List Token → List Token × Lexer
  | 0, lx, acc => (acc, lx)
  | fuel + 1, lx, acc =>
    if lx.isAtEnd then (acc, lx)
    else
      let lx1 := { lx with start := lx.current }
      let p := lx1.scanToken inner
      let acc1 := if p.1.type = .ERROR then acc else acc ++ [p.1]
      Lexer.tokenizeLoop inner fuel p.2 acc1

/-- `Lexer::tokenize`: reset the scan state, scan to the end, and append
the final EOF token (built by `makeToken`, so its lexeme is the substring
between the last `m_start` and `m_current`). -/
def Lexer.tokenize (source : String) : List Token :=
  let lx0 : Lexer := ⟨source.toList, 0, 0, 1, 1⟩
  let fuel := source.toList.length + 1
  let p := Lexer.tokenizeLoop fuel fuel lx0 []
  p.1 ++ [p.2.makeToken .EOF_TOKEN]

/-- The lexing stage of `Compiler::compile` (the part the claims touch):
clear the error, tokenize, and scan the token list for an ERROR-kind
token. Finding one records the diagnostic
`[Line n] Lexer Error: lexeme` and returns the empty chunk without
running the parser (`inl`); otherwise the token list is handed on to the
parser (`inr`). -/
def Compiler.lexStage (source : String) : Sum (String × Chunk) (List Token) :=
  let tokens := Lexer.tokenize source
  match tokens.find? (fun t => t.type == TokenType.ERROR) with
  | some t =>
    .inl ("[Line " ++ toString t.line ++ "] Lexer Error: " ++ t.lexeme, ⟨[], [], []⟩)
  | none => .inr tokens

/-! ### Helper facts about the generator state -/

/-- An identifier token as the tests build them; only the lexeme matters to
the IR generator. -/
def mkIdent (s : String) : Token := ⟨.IDENTIFIER, s, 1, 1, .none⟩

theorem error_hadError (g : IRGenerator) (m : String) :
    (g.error m).hadError = true := rfl

theorem emitByte_hadError (g : IRGenerator) (op : OpCode) (n : Nat) :
    (g.emitByte op n).hadError = g.hadError := rfl

theorem emitJump_hadError (g : IRGenerator) (op : OpCode) :
    (g.emitJump op).hadError = g.hadError := rfl

theorem emitLoop_hadError_mono (g : IRGenerator) (l : Nat) (h : g.hadError = true) :
    (g.emitLoop l).hadError = true := by
  unfold IRGenerator.emitLoop
  dsimp only
  split
  · rfl
  · exact h

theorem patchJump_hadError_mono (g : IRGenerator) (o : Nat) (h : g.hadError = true) :
    (g.patchJump o).hadError = true := by
  unfold IRGenerator.patchJump
  dsimp only
  split
  · rfl
  · exact h

theorem declareVariable_hadError_mono (g : IRGenerator) (n : String)
    (h : g.hadError = true) : (g.declareVariable n).hadError = true := by
  unfold IRGenerator.declareVariable
  split
  · exact h
  · split
    · rfl
    · exact h

theorem markInitialized_hadError (g : IRGenerator) :
    (g.markInitialized).hadError = g.hadError := by
  unfold IRGenerator.markInitialized
  cases g.locals.getLast? <;> rfl

theorem popDeeperLocals_hadError (n : Nat) :
    ∀ g : IRGenerator, (g.popDeeperLocals n).hadError = g.hadError := by
  induction n with
  | zero => intro g; rfl
  | succ n ih =>
    intro g
    unfold IRGenerator.popDeeperLocals
    cases h : g.locals.getLast? with
    | none => rfl
    | some l =>
      simp only
      split
      · exact ih _
      · rfl

theorem endScope_hadError (g : IRGenerator) :
    (g.endScope).hadError = g.hadError := by
  unfold IRGenerator.endScope
  rw [popDeeperLocals_hadError]

theorem beginScope_hadError (g : IRGenerator) :
    (g.beginScope).hadError = g.hadError := rfl

mutual

theorem compileExpr_hadError_mono (g : IRGenerator) (e : Expr)
    (h : g.hadError = true) : (g.compileExpr e).hadError = true := by
  cases e with
  | Binary left op right =>
    have h1 : ((g.compileExpr left).compileExpr right).hadError = true :=
      compileExpr_hadError_mono _ right (compileExpr_hadError_mono _ left h)
    simp only [IRGenerator.compileExpr]
    cases hty : op.type <;>
      simp [hty, IRGenerator.emitByte, IRGenerator.error, h1]
  | Unary op right =>
    have h1 : (g.compileExpr right).hadError = true :=
      compileExpr_hadError_mono _ right h
    simp only [IRGenerator.compileExpr]
    cases hty : op.type <;>
      simp [hty, IRGenerator.emitByte, IRGenerator.error, h1]
  | Literal value =>
    simp only [IRGenerator.compileExpr]
    cases value with
    | num n => simpa using h
    | str s => simpa using h
    | bool b => cases b <;> simp [IRGenerator.emitByte, h]
    | nil => simp [IRGenerator.emitByte, h]
  | Variable name =>
    simp only [IRGenerator.compileExpr]
    cases hr : resolveLocal g.locals name.lexeme <;>
      simp [hr, IRGenerator.emitByte, IRGenerator.error, h]
  | Assignment name value =>
    have h1 : (g.compileExpr value).hadError = true :=
      compileExpr_hadError_mono _ value h
    simp only [IRGenerator.compileExpr]
    cases hr : resolveLocal (g.compileExpr value).locals name.lexeme <;>
      simp [hr, IRGenerator.emitByte, IRGenerator.error, h1]
  | Call callee arguments =>
    have h1 : ((g.compileExpr callee).compileExprList arguments).hadError = true :=
      compileExprList_hadError_mono _ arguments
        (compileExpr_hadError_mono _ callee h)
    simp only [IRGenerator.compileExpr]
    simp [IRGenerator.emitByte, h1]
  | Grouping expression =>
    simp only [IRGenerator.compileExpr]
    exact compileExpr_hadError_mono _ expression h

theorem compileExprList_hadError_mono (g : IRGenerator) (es : List Expr)
    (h : g.hadError = true) : (g.compileExprList es).hadError = true := by
  cases es with
  | nil => simpa [IRGenerator.compileExprList] using h
  | cons a rest =>
    simp only [IRGenerator.compileExprList]
    exact compileExprList_hadError_mono _ rest (compileExpr_hadError_mono _ a h)

end

mutual

theorem compileStmt_hadError_mono (g : IRGenerator) (s : Stmt)
    (h : g.hadError = true) : (g.compileStmt s).hadError = true := by
  cases s with
  | Expression expression =>
    simp only [IRGenerator.compileStmt]
    simp [IRGenerator.emitByte, compileExpr_hadError_mono _ expression h]
  | Let name initializer =>
    have hd := declareVariable_hadError_mono g name.lexeme h
    cases initializer with
    | some e =>
      simp only [IRGenerator.compileStmt]
      rw [markInitialized_hadError]
      exact compileExpr_hadError_mono _ e hd
    | none =>
      simp only [IRGenerator.compileStmt]
      rw [markInitialized_hadError, emitByte_hadError]
      exact hd
  | Function name params body =>
    simp only [IRGenerator.compileStmt]
    rw [emitByte_hadError, markInitialized_hadError]
    exact declareVariable_hadError_mono g name.lexeme h
  | If condition thenBranch elseBranch =>
    have h3 : (((((g.compileExpr condition).emitJump .OP_JUMP_IF_FALSE).compileStmt
        thenBranch).emitJump .OP_JUMP)).hadError = true := by
      rw [emitJump_hadError]
      apply compileStmt_hadError_mono
      rw [emitJump_hadError]
      exact compileExpr_hadError_mono _ condition h
    cases elseBranch with
    | some e =>
      simp only [IRGenerator.compileStmt]
      apply patchJump_hadError_mono
      apply compileStmt_hadError_mono
      apply patchJump_hadError_mono
      exact h3
    | none =>
      simp only [IRGenerator.compileStmt]
      apply patchJump_hadError_mono
      apply patchJump_hadError_mono
      exact h3
  | While condition body =>
    simp only [IRGenerator.compileStmt]
    apply patchJump_hadError_mono
    apply emitLoop_hadError_mono
    apply compileStmt_hadError_mono
    rw [emitJump_hadError]
    exact compileExpr_hadError_mono _ condition h
  | Return value =>
    cases value with
    | some e =>
      simp only [IRGenerator.compileStmt]
      rw [emitByte_hadError]
      exact compileExpr_hadError_mono _ e h
    | none =>
      simp only [IRGenerator.compileStmt]
      rw [emitByte_hadError, emitByte_hadError]
      exact h
  | Print expression =>
    simp only [IRGenerator.compileStmt]
    simp [IRGenerator.emitByte, compileExpr_hadError_mono _ expression h]
  | Block statements =>
    simp only [IRGenerator.compileStmt]
    rw [endScope_hadError]
    apply compileStmtList_hadError_mono
    rw [beginScope_hadError]
    exact h

theorem compileStmtList_hadError_mono (g : IRGenerator) (ss : List Stmt)
    (h : g.hadError = true) : (g.compileStmtList ss).hadError = true := by
  cases ss with
  | nil => simpa [IRGenerator.compileStmtList] using h
  | cons s rest =>
    simp only [IRGenerator.compileStmtList]
    exact compileStmtList_hadError_mono _ rest (compileStmt_hadError_mono _ s h)

end

theorem compileTop_early_return (g : IRGenerator) (s : Stmt) (rest : List Stmt)
    (h : (g.compileStmt s).hadError = true) :
    g.compileTop (s :: rest) = g.compileStmt s := by
  simp [IRGenerator.compileTop, h]

theorem declareVariable_chunk (g : IRGenerator) (n : String) :
    (g.declareVariable n).chunk = g.chunk := by
  unfold IRGenerator.declareVariable
  split
  · rfl
  · split <;> rfl

theorem markInitialized_chunk (g : IRGenerator) :
    (g.markInitialized).chunk = g.chunk := by
  unfold IRGenerator.markInitialized
  cases g.locals.getLast? <;> rfl

/-! ### The claims -/

/-- C1: whenever execution reaches an `OP_GET_LOCAL` or `OP_SET_LOCAL`
instruction (the instruction under the current instruction pointer), the
dispatch loop returns `RUNTIME_ERROR` at once — executing nothing further,
whatever fuel remains — with the stored message
"Local variables not fully implemented."; reaching `OP_CALL` likewise
returns `RUNTIME_ERROR` at once with
"Function calls not fully implemented.". The stack and the output are left
as they were, so in particular nothing more is printed. -/
theorem c1_unimplemented_opcodes_halt (chunk : Chunk) (vm : VM) (fuel : Nat)
    (i : Instruction) (hget : chunk.code.get? vm.ip = some i) :
    ((i.opcode = .OP_GET_LOCAL ∨ i.opcode = .OP_SET_LOCAL) →
      VM.runLoop chunk (fuel + 1) vm =
        (some .RUNTIME_ERROR,
          ⟨vm.stack, (vm.ip + 1) % UINT64,
            "Local variables not fully implemented.", vm.output⟩)) ∧
    (i.opcode = .OP_CALL →
      VM.runLoop chunk (fuel + 1) vm =
        (some .RUNTIME_ERROR,
          ⟨vm.stack, (vm.ip + 1) % UINT64,
            "Function calls not fully implemented.", vm.output⟩)) := by
  constructor
  · intro hop
    rcases hop with hop | hop <;>
    · simp only [VM.runLoop]
      unfold VM.step
      rw [hget]
      dsimp only
      rw [hop]
      rfl
  · intro hop
    simp only [VM.runLoop]
    unfold VM.step
    rw [hget]
    dsimp only
    rw [hop]
    rfl

/-- A two-instruction chunk exercising both unimplemented opcode families. -/
def c1Chunk : Chunk :=
  ⟨[⟨.OP_GET_LOCAL, 0, .nil⟩, ⟨.OP_CALL, 0, .nil⟩], [0, 0], []⟩

/-- C1 witness: the theorem applied at a concrete chunk whose instruction 0
is `OP_GET_LOCAL` and instruction 1 is `OP_CALL`. -/
theorem c1_witness :
    c1Chunk.code.get? 0 = some ⟨.OP_GET_LOCAL, 0, .nil⟩ ∧
    VM.runLoop c1Chunk 1 ⟨[], 0, "", []⟩ =
      (some .RUNTIME_ERROR,
        ⟨[], 1 % UINT64, "Local variables not fully implemented.", []⟩) ∧
    VM.runLoop c1Chunk 1 ⟨[], 1, "", []⟩ =
      (some .RUNTIME_ERROR,
        ⟨[], 2 % UINT64, "Function calls not fully implemented.", []⟩) :=
  ⟨rfl,
    (c1_unimplemented_opcodes_halt c1Chunk ⟨[], 0, "", []⟩ 0 _ rfl).1 (Or.inl rfl),
    (c1_unimplemented_opcodes_halt c1Chunk ⟨[], 1, "", []⟩ 0 _ rfl).2 rfl⟩

/-- A program lowering to 257 constant loads: one number literal per
expression statement. -/
def c2Prog : Program := List.replicate 257 (Stmt.Expression (.Literal (.num 1)))

/-- C2 counterexample: a program whose lowering places constants at pool
indices up to 256 compiles with no error at all — there is no
"constant pool overflow" check anywhere — and the `OP_CONSTANT` emitted for
the constant at true pool index 256 (instruction 512, two instructions per
statement) carries the truncated operand 0, not its true index. -/
theorem c2_counterexample :
    (IRGenerator.compile c2Prog).hadError = false ∧
    (IRGenerator.compile c2Prog).chunk.constants.length = 257 ∧
    (IRGenerator.compile c2Prog).chunk.code.get? 512 =
      some ⟨.OP_CONSTANT, 0, .nil⟩ := ⟨rfl, rfl, rfl⟩

/-- C2 amended: `Chunk::writeConstant` appends the value at the true index
`constants.length` and emits `OP_CONSTANT` whose operand is that index
reduced mod 256 (the `static_cast<uint8_t>`), unconditionally — no
compile-time error exists on overflow, so operands agree with true indices
exactly while the pool stays within 256 entries. -/
theorem c2_amended_truncation (c : Chunk) (v : Value) (line : Nat) :
    (c.writeConstant v line).constants = c.constants ++ [v] ∧
    (c.writeConstant v line).code =
      c.code ++ [⟨.OP_CONSTANT, c.constants.length % 256, .nil⟩] ∧
    (c.writeConstant v line).lines = c.lines ++ [line] := ⟨rfl, rfl, rfl⟩

/-- C3: on the source "@" the lexer's `scanToken` produces an ERROR-kind
token ("Unexpected character: @"), but `tokenize` filters ERROR tokens out
of the list it returns, so the token list reaching `Compiler::compile`'s
lexer-error check contains only EOF, the check never fires, and the
pipeline proceeds to the parser (`inr`) with no lexer-stage diagnostic —
the compile step does not stop. -/
theorem c3_lexer_error_swallowed :
    (Lexer.scanToken 2 ⟨"@".toList, 0, 0, 1, 1⟩).1.type = .ERROR ∧
    (Lexer.scanToken 2 ⟨"@".toList, 0, 0, 1, 1⟩).1.lexeme = "Unexpected character: @" ∧
    (Lexer.tokenize "@").map Token.type = [.EOF_TOKEN] ∧
    Compiler.lexStage "@" = .inr (Lexer.tokenize "@") := ⟨rfl, rfl, rfl, rfl⟩

/-- A chunk that pops an empty stack and then keeps executing. -/
def c4Chunk : Chunk :=
  ⟨[⟨.OP_POP, 0, .nil⟩, ⟨.OP_NIL, 0, .nil⟩, ⟨.OP_PRINT, 0, .nil⟩,
    ⟨.OP_RETURN, 0, .nil⟩], [0, 0, 0, 0], []⟩

/-- C4 counterexample: popping an empty stack does not make `interpret`
return `RuntimeError` immediately — after the underflow on instruction 0
the run executes three further instructions, prints "nil", and returns
`OK`, with "Stack underflow." merely left in the error message. -/
theorem c4_counterexample :
    VM.interpret c4Chunk 10 ⟨[], 0, "", []⟩ =
      (some .OK, ⟨[], 4, "Stack underflow.", ["nil"]⟩) := by rfl

/-- A chunk whose first instruction raises a type-mismatch fault. -/
def c4AddChunk : Chunk := ⟨[⟨.OP_ADD, 0, .nil⟩], [0], []⟩

/-- C4 amended: `VM::pop` on an empty stack stores "Stack underflow." and
yields nil, and execution continues past the underflowing `OP_POP` (the
step is a `cont`, not a `halt`, as the concrete chunk shows); by contrast
a fault raised at a dispatch site — here `OP_ADD` on two nil operands —
stores its message and halts the run with `RUNTIME_ERROR` immediately. -/
theorem c4_amended_behavior :
    (∀ (ip : Nat) (msg : String) (out : List String),
      VM.pop ⟨[], ip, msg, out⟩ = (.nil, ⟨[], ip, "Stack underflow.", out⟩)) ∧
    VM.step c4Chunk ⟨[], 0, "", []⟩ = .cont ⟨[], 1, "Stack underflow.", []⟩ ∧
    VM.step c4AddChunk ⟨[], 0, "", []⟩ =
      .halt .RUNTIME_ERROR
        ⟨[], 1, "Operands must be two numbers or two strings.", []⟩ :=
  ⟨fun _ _ _ => rfl, rfl, rfl⟩

/-- A statement whose lowering errors: `x` resolves to no local. -/
def c5Bad : Stmt := Stmt.Expression (.Variable (mkIdent "x"))

/-- The erroring statement followed by a statement that would lower to
`OP_CONSTANT` and `OP_PRINT` were the walk to continue. -/
def c5Prog : Program := [c5Bad, Stmt.Print (.Literal (.num 1))]

/-- C5 counterexample: lowering does not continue over the remaining
statements once one errors — compiling the two-statement program yields a
state identical to compiling the erroring statement alone, whose chunk
holds only the `OP_POP` of the first statement and no trace of the
`print`. -/
theorem c5_counterexample :
    IRGenerator.compile c5Prog = IRGenerator.compile [c5Bad] ∧
    (IRGenerator.compile c5Prog).chunk.code = [⟨.OP_POP, 0, .nil⟩] ∧
    (IRGenerator.compile c5Prog).hadError = true ∧
    (IRGenerator.compile c5Prog).errorMsg = "Undefined variable: x" :=
  ⟨rfl, rfl, rfl, rfl⟩

/-- C5 amended: the failure flag is sticky — once set, no later lowering
call during the walk clears it — and the top-level loop of `compile`
returns right after the first statement whose lowering set the flag,
leaving the remaining statements unlowered; callers observe the flag only
on the state `compile` returns. -/
theorem c5_amended_sticky_early_return :
    (∀ (g : IRGenerator) (s : Stmt),
      g.hadError = true → (g.compileStmt s).hadError = true) ∧
    (∀ (g : IRGenerator) (s : Stmt) (rest : List Stmt),
      (g.compileStmt s).hadError = true →
        g.compileTop (s :: rest) = g.compileStmt s) :=
  ⟨fun g s h => compileStmt_hadError_mono g s h,
   fun g s rest h => compileTop_early_return g s rest h⟩

/-- C5 witness: the amended theorem applied at an errored generator state,
and at the concrete two-statement program of the counterexample. -/
theorem c5_witness :
    ((IRGenerator.init.error "boom").compileStmt (Stmt.Print (.Literal .nil))).hadError
      = true ∧
    (IRGenerator.init.beginScope).compileTop c5Prog =
      (IRGenerator.init.beginScope).compileStmt c5Bad :=
  ⟨c5_amended_sticky_early_return.1 (IRGenerator.init.error "boom")
      (Stmt.Print (.Literal .nil)) rfl,
   c5_amended_sticky_early_return.2 IRGenerator.init.beginScope c5Bad
      [Stmt.Print (.Literal (.num 1))] (by rfl)⟩

/-- The loop program `let i = 0; while (i < 3) { print i; i = i + 1; }` as
the parser would build it. -/
def c6Prog : Program :=
  [Stmt.Let (mkIdent "i") (some (.Literal (.num 0))),
   Stmt.While
     (.Binary (.Variable (mkIdent "i")) ⟨.LESS, "<", 1, 1, .none⟩ (.Literal (.num 3)))
     (Stmt.Block
       [Stmt.Print (.Variable (mkIdent "i")),
        Stmt.Expression (.Assignment (mkIdent "i")
          (.Binary (.Variable (mkIdent "i")) ⟨.PLUS, "+", 1, 1, .none⟩
            (.Literal (.num 1))))])]

/-- C6 counterexample: the loop program compiles, but interpreting it
prints nothing and returns `RUNTIME_ERROR`: the very first read of `i`
(the `OP_GET_LOCAL` at instruction 1) faults with
"Local variables not fully implemented.", so the run never reaches the
comparison, the print, or any iteration. -/
theorem c6_counterexample :
    (IRGenerator.compile c6Prog).hadError = false ∧
    VM.interpret (IRGenerator.compile c6Prog).chunk 100 ⟨[], 0, "", []⟩ =
      (some .RUNTIME_ERROR,
        ⟨[.number 0], 2, "Local variables not fully implemented.", []⟩) :=
  ⟨rfl, rfl⟩

/-- C6 amended: the program compiles to the 15 instructions listed — note
that no `OP_POP` of the stale condition value follows the
`OP_JUMP_IF_FALSE` (instruction 5 is already the body's `OP_GET_LOCAL`),
so the claimed per-iteration pop is not emitted either — and running the
chunk faults at the first `OP_GET_LOCAL` with
"Local variables not fully implemented.", printing nothing. -/
theorem c6_amended_runtime_fault :
    (IRGenerator.compile c6Prog).hadError = false ∧
    (IRGenerator.compile c6Prog).chunk.code =
      [⟨.OP_CONSTANT, 0, .nil⟩, ⟨.OP_GET_LOCAL, 0, .nil⟩, ⟨.OP_CONSTANT, 1, .nil⟩,
       ⟨.OP_LESS, 0, .nil⟩, ⟨.OP_JUMP_IF_FALSE, 8, .nil⟩, ⟨.OP_GET_LOCAL, 0, .nil⟩,
       ⟨.OP_PRINT, 0, .nil⟩, ⟨.OP_GET_LOCAL, 0, .nil⟩, ⟨.OP_CONSTANT, 2, .nil⟩,
       ⟨.OP_ADD, 0, .nil⟩, ⟨.OP_SET_LOCAL, 0, .nil⟩, ⟨.OP_POP, 0, .nil⟩,
       ⟨.OP_LOOP, 11, .nil⟩, ⟨.OP_POP, 0, .nil⟩, ⟨.OP_RETURN, 0, .nil⟩] ∧
    VM.interpret (IRGenerator.compile c6Prog).chunk 100 ⟨[], 0, "", []⟩ =
      (some .RUNTIME_ERROR,
        ⟨[.number 0], 2, "Local variables not fully implemented.", []⟩) :=
  ⟨rfl, rfl, rfl⟩

/-- A branch body compiling to exactly 255 instructions: an inner while
loop of 5 instructions plus 125 two-instruction expression statements. -/
def c7Body255 : Stmt :=
  Stmt.Block ([Stmt.While (.Literal .nil) (Stmt.Expression (.Literal .nil))] ++
    List.replicate 125 (Stmt.Expression (.Literal .nil)))

/-- An if statement around the 255-instruction body. -/
def c7Prog255 : Program := [Stmt.If (.Literal (.bool true)) c7Body255 none]

/-- C7 counterexample: a then-branch body of exactly 255 instructions does
not compile — the patch distance also spans the skip-else `OP_JUMP`, so it
comes to 256 and `patchJump` raises "Jump too far." — where the claim
promises success at 255. -/
theorem c7_counterexample :
    ((IRGenerator.init.beginScope).compileStmt c7Body255).chunk.code.length = 255 ∧
    (IRGenerator.compile c7Prog255).hadError = true ∧
    (IRGenerator.compile c7Prog255).errorMsg = "Jump too far." := ⟨rfl, rfl, rfl⟩

/-- A branch body of exactly 254 instructions. -/
def c7Body254 : Stmt :=
  Stmt.Block (List.replicate 127 (Stmt.Expression (.Literal .nil)))

/-- An if statement around the 254-instruction body. -/
def c7Prog254 : Program := [Stmt.If (.Literal (.bool true)) c7Body254 none]

/-- An if statement whose then branch is two instructions, to exhibit the
patch formula away from the boundary. -/
def c7SmallIf : Program :=
  [Stmt.If (.Literal (.bool true)) (Stmt.Expression (.Literal .nil)) none]

/-- C7 amended: the conditional-jump placeholder is patched to
`code.size() - 1 - offset`, which is the branch body's instruction count
plus one for the unconditional skip-else jump; hence a body of up to 254
instructions succeeds (at 254 the patched operand is 255, the bound) and a
body of 255 instructions fails with "Jump too far.". The two-instruction
body patches to 3, as the formula predicts. -/
theorem c7_amended_jump_bound :
    ((IRGenerator.init.beginScope).compileStmt c7Body254).chunk.code.length = 254 ∧
    (IRGenerator.compile c7Prog254).hadError = false ∧
    (IRGenerator.compile c7Prog254).chunk.code.get? 1 =
      some ⟨.OP_JUMP_IF_FALSE, 255, .nil⟩ ∧
    (IRGenerator.compile c7SmallIf).hadError = false ∧
    (IRGenerator.compile c7SmallIf).chunk.code.get? 1 =
      some ⟨.OP_JUMP_IF_FALSE, 3, .nil⟩ := ⟨rfl, rfl, rfl, rfl, rfl⟩

/-- The duplicate-in-scope program `{ let x = 1; let x = 2; }`. -/
def c8Dup : Program :=
  [Stmt.Block [Stmt.Let (mkIdent "x") (some (.Literal (.num 1))),
               Stmt.Let (mkIdent "x") (some (.Literal (.num 2)))]]

/-- The cross-depth shadowing program
`let x = 1; if (true) { let x = 2; }`. -/
def c8Shadow : Program :=
  [Stmt.Let (mkIdent "x") (some (.Literal (.num 1))),
   Stmt.If (.Literal (.bool true))
     (Stmt.Block [Stmt.Let (mkIdent "x") (some (.Literal (.num 2)))]) none]

/-- In a depth-sorted locals list whose depths are all at most `D`, every
entry of depth `D` sits in the run that `takeWhile` keeps: the scan that
stops at the first entry from another depth still sees every entry at the
current depth. Stated on the already-reversed list, whose depths are
non-increasing. -/
theorem mem_takeWhile_depth_of_sorted (D : Nat) :
    ∀ (r : List Local), r.Pairwise (fun a b => b.depth ≤ a.depth) →
      (∀ x ∈ r, x.depth ≤ D) →
      ∀ l ∈ r, l.depth = D → l ∈ r.takeWhile (fun x => x.depth == D) := by
  intro r
  induction r with
  | nil => intro _ _ l hl; cases hl
  | cons a t ih =>
    intro hsorted hall l hl hld
    rcases List.pairwise_cons.mp hsorted with ⟨ha, ht⟩
    by_cases haD : a.depth = D
    · rw [List.takeWhile_cons_of_pos (by simpa using haD)]
      rcases List.mem_cons.mp hl with rfl | hl
      · exact List.mem_cons_self _ _
      · exact List.mem_cons_of_mem _
          (ih ht (fun x hx => hall x (List.mem_cons_of_mem _ hx)) l hl hld)
    · rcases List.mem_cons.mp hl with rfl | hl
      · exact absurd hld haD
      · have : l.depth ≤ a.depth := ha l hl
        have haltD : a.depth < D :=
          lt_of_le_of_ne (hall a (List.mem_cons_self _ _)) haD
        omega

/-- C8: universally over generator states, `declareVariable` at a nonzero
depth raises the duplicate-declaration error — leaving the locals alone —
exactly when some local with the same name already exists at the current
depth (given the invariant every compile maintains: locals are pushed in
declaration order, so depths are non-decreasing and bounded by the current
scope depth), and pushes the new local with no error whenever every local
of that name sits at a different depth (shadowing, with no invariant
needed); concretely, `{ let x = 1; let x = 2; }` fails compilation with
the duplicate-declaration error and
`let x = 1; if (true) { let x = 2; }` compiles with no error. -/
theorem c8_duplicate_vs_shadowing :
    (∀ (g : IRGenerator) (name : String),
      g.scopeDepth ≠ 0 →
      g.locals.Pairwise (fun a b => a.depth ≤ b.depth) →
      (∀ l ∈ g.locals, l.depth ≤ g.scopeDepth) →
      (∃ l ∈ g.locals, l.name = name ∧ l.depth = g.scopeDepth) →
        g.declareVariable name =
          g.error ("Variable '" ++ name ++ "' already declared in this scope.")) ∧
    (∀ (g : IRGenerator) (name : String),
      g.scopeDepth ≠ 0 →
      (∀ l ∈ g.locals, l.name = name → l.depth ≠ g.scopeDepth) →
        g.declareVariable name =
          { g with locals := g.locals ++ [⟨name, g.scopeDepth, false⟩] }) ∧
    (IRGenerator.compile c8Dup).hadError = true ∧
    (IRGenerator.compile c8Dup).errorMsg =
      "Variable 'x' already declared in this scope." ∧
    (IRGenerator.compile c8Shadow).hadError = false := by
  refine ⟨?_, ?_, rfl, rfl, rfl⟩
  · intro g name h0 hsorted hle ⟨l, hmem, hname, hdepth⟩
    have hdup : dupInCurrentScope g.locals g.scopeDepth name = true := by
      apply List.any_eq_true.mpr
      refine ⟨l, ?_, by simp [hname]⟩
      exact mem_takeWhile_depth_of_sorted g.scopeDepth g.locals.reverse
        (List.pairwise_reverse.mpr hsorted)
        (fun x hx => hle x (List.mem_reverse.mp hx)) l
        (List.mem_reverse.mpr hmem) hdepth
    unfold IRGenerator.declareVariable
    rw [if_neg h0, if_pos hdup]
  · intro g name h0 hnone
    have hdup : dupInCurrentScope g.locals g.scopeDepth name = false := by
      rw [← Bool.not_eq_true]
      intro hany
      rcases List.any_eq_true.mp hany with ⟨x, hx, hxname⟩
      have hxd : x.depth = g.scopeDepth := by
        simpa using List.mem_takeWhile_imp hx
      have hxmem : x ∈ g.locals :=
        List.mem_reverse.mp (List.takeWhile_subset _ hx)
      exact hnone x hxmem (by simpa using hxname) hxd
    unfold IRGenerator.declareVariable
    rw [if_neg h0, if_neg (by simp [hdup])]

/-- C8 witness: the theorem applied at concrete generator states — a
duplicate of `x` at depth 1 that is not the newest local still errors,
and redeclaring `x` at depth 2 over an `x` at depth 1 pushes the shadowing
local with no error. -/
theorem c8_witness :
    (⟨⟨[], [], []⟩, [⟨"x", 1, false⟩, ⟨"y", 1, false⟩], 1, false, ""⟩ :
        IRGenerator).declareVariable "x" =
      (⟨⟨[], [], []⟩, [⟨"x", 1, false⟩, ⟨"y", 1, false⟩], 1, false, ""⟩ :
        IRGenerator).error "Variable 'x' already declared in this scope." ∧
    (⟨⟨[], [], []⟩, [⟨"x", 1, false⟩], 2, false, ""⟩ :
        IRGenerator).declareVariable "x" =
      { (⟨⟨[], [], []⟩, [⟨"x", 1, false⟩], 2, false, ""⟩ : IRGenerator) with
        locals := [⟨"x", 1, false⟩, ⟨"x", 2, false⟩] } :=
  ⟨c8_duplicate_vs_shadowing.1 _ "x" (by decide) (by decide) (by decide)
      ⟨⟨"x", 1, false⟩, List.mem_cons_self _ _, rfl, rfl⟩,
   c8_duplicate_vs_shadowing.2.1 _ "x" (by decide) (by decide)⟩

/-- C9: for any chunk, a second `interpret` call on the VM state the first
call left behind returns exactly the same result, final state and printed
output as the first call did (with the same fuel bound on the loop): the
resets at the top of `interpret` erase everything a previous run could
leave in the instruction pointer, operand stack or error message. -/
theorem c9_interpret_replayable (chunk : Chunk) (fuel : Nat) (vm0 : VM) :
    VM.interpret chunk fuel vm0 =
      VM.interpret chunk fuel (VM.interpret chunk fuel vm0).2 := rfl

/-- A function declaration with a duplicated parameter name and a body
referencing an identifier that resolves nowhere; neither is rejected. -/
def c10Prog : Program :=
  [Stmt.Function (mkIdent "f") [mkIdent "x", mkIdent "x"]
    [Stmt.Expression (.Variable (mkIdent "nowhere"))]]

/-- C10: lowering a function declaration emits exactly one `OP_NIL` and
nothing else into the chunk, and the result is literally independent of
the parameter list and body (both are ignored, so no error inside them can
ever surface); concretely, declaring `f` with a duplicate parameter and an
unresolvable identifier in its body compiles the whole program to
`OP_NIL`, the scope-closing `OP_POP` for `f`, and `OP_RETURN`, with no
error. -/
theorem c10_function_stub :
    (∀ (g : IRGenerator) (name : Token) (params : List Token) (body : List Stmt),
      (g.compileStmt (Stmt.Function name params body)).chunk.code =
        g.chunk.code ++ [⟨.OP_NIL, 0, .nil⟩] ∧
      g.compileStmt (Stmt.Function name params body) =
        g.compileStmt (Stmt.Function name [] [])) ∧
    (IRGenerator.compile c10Prog).hadError = false ∧
    (IRGenerator.compile c10Prog).chunk.code =
      [⟨.OP_NIL, 0, .nil⟩, ⟨.OP_POP, 0, .nil⟩, ⟨.OP_RETURN, 0, .nil⟩] := by
  refine ⟨fun g name params body => ⟨?_, ?_⟩, by rfl, by rfl⟩
  · simp only [IRGenerator.compileStmt]
    simp [IRGenerator.emitByte, Chunk.write, markInitialized_chunk,
      declareVariable_chunk]
  · simp only [IRGenerator.compileStmt]

end minilang
